import Mathlib

/-!
Verification of the Raster Geometry & Annotation Engine of the TerraSAR-X
pipeline (`SAR.py`).  The numeric parts of the engine are embedded over
exact arithmetic: quantities the program holds in Python floats are
modelled as rationals (`ℚ`) where the computation is rational, and as real
numbers (`ℝ`) where the program calls trigonometric functions.  Python's
built-in `round` (banker's rounding, round-half-to-even) is modelled
explicitly as `pyRound`.
-/

namespace SAR

/-- Python's built-in `round` on a real-valued argument, returning an
integer: round half to even (banker's rounding).  `round(2.5) = 2`,
`round(3.5) = 4`, `round(0.4) = 0`. -/
def pyRound (q : ℚ) : ℤ :=
  let f : ℤ := ⌊q⌋
  let r : ℚ := q - f
  if r < 1/2 then f
  else if 1/2 < r then f + 1
  else if Even f then f else f + 1

/-- The scale-bar computation of `gen_cropped_png` (SAR.py lines 418-425).
`size` is `meta['size']`, the physical side length of the crop in meters.
The unit string is the GMT unit code used by the program: `"e"` is meters,
`"k"` is kilometers.  Returns the pair `(scale_length, scale_unit)`. -/
def scaleBar (size : ℚ) : ℚ × String :=
  let scale_length : ℚ := size / 5
  if scale_length < 1000 then
    (((pyRound (scale_length / 50) : ℚ) * 50), "e")
  else
    let rounded : ℚ := (pyRound (scale_length / 1000) : ℚ) * 1000
    (rounded / 1000, "k")

/-- A GDAL geotransform: the six coefficients in GDAL order
`(gt0, gt1, gt2, gt3, gt4, gt5)` = (origin X, pixel size X, row rotation,
origin Y, column rotation, pixel size Y). -/
@[ext]
structure GdalGT (K : Type) where
  g0 : K
  g1 : K
  g2 : K
  g3 : K
  g4 : K
  g5 : K
deriving DecidableEq, Repr

/-- The crop-region planner of `gen_cropped_png` (SAR.py lines 377-396).
`size?` is `meta['size']` when present (`try: half_side = meta['size']/2`);
`none` models the `KeyError` fallback that uses the raster's own extent.
Returns `(proj_cropped_bounds, size)` where the bounds list
`[minX, maxY, maxX, minY]` is modelled as a 4-tuple in the same order and
`size` is the value of `meta['size']` after the branch. -/
def planCrop (gt : GdalGT ℚ) (xsize ysize : ℕ) (size? : Option ℚ)
    (centerx centery : ℚ) : (ℚ × ℚ × ℚ × ℚ) × ℚ :=
  match size? with
  | none =>
    let x_min := gt.g0
    let y_max := gt.g3
    let x_max := x_min + gt.g1 * (xsize : ℚ)
    let y_min := y_max + gt.g5 * (ysize : ℚ)
    ((x_min, y_max, x_max, y_min), x_max - x_min)
  | some size =>
    let half_side := size / 2
    ((centerx - half_side, centery + half_side,
      centerx + half_side, centery - half_side), size)

end SAR

/-- C1: for every positive physical side length `s`, the scale-bar
computation sets `raw = s / 5`; if `raw < 1000` it returns
`round(raw/50)*50` meters (unit code `"e"`), otherwise — the boundary
`raw = 1000` included — it returns `round(raw/1000)*1000` converted to
kilometers (unit code `"k"`).  In particular `s = 4000` gives 800 meters,
`s = 12000` gives 2 kilometers, and `s = 5000` (raw exactly 1000) takes
the kilometers branch, giving 1 kilometer. -/
theorem SAR.scaleBar_spec (s : ℚ) (hs : 0 < s) :
    (s / 5 < 1000 → SAR.scaleBar s = ((SAR.pyRound (s / 5 / 50) : ℚ) * 50, "e"))
    ∧ (1000 ≤ s / 5 →
        SAR.scaleBar s = (((SAR.pyRound (s / 5 / 1000) : ℚ) * 1000) / 1000, "k"))
    ∧ SAR.scaleBar 4000 = (800, "e")
    ∧ SAR.scaleBar 12000 = (2, "k")
    ∧ SAR.scaleBar 5000 = (1, "k") := by
  refine ⟨fun h => ?_, fun h => ?_, ?_, ?_, ?_⟩
  · simp [SAR.scaleBar, h]
  · simp [SAR.scaleBar, not_lt.mpr h]
  · norm_num [SAR.scaleBar, SAR.pyRound]
  · norm_num [SAR.scaleBar, SAR.pyRound]
  · norm_num [SAR.scaleBar, SAR.pyRound]

/-- Witness for C1 at `s = 4000`. -/
theorem SAR.scaleBar_spec_witness :
    (0 : ℚ) < 4000 ∧ SAR.scaleBar 4000 = (800, "e") :=
  ⟨by norm_num, (SAR.scaleBar_spec 4000 (by norm_num)).2.2.1⟩

/-- Helper: `pyRound` of a value in `[0, 1/2)` is `0`. -/
theorem SAR.pyRound_eq_zero (q : ℚ) (h0 : 0 ≤ q) (h1 : q < 1/2) :
    SAR.pyRound q = 0 := by
  have hf : ⌊q⌋ = 0 := Int.floor_eq_zero_iff.mpr ⟨h0, by linarith⟩
  simp only [SAR.pyRound, hf, Int.cast_zero, sub_zero]
  rw [if_pos h1]

/-- C10: for every physical side length `s` with `0 < s < 125` projected
units, the scale-bar computation returns length 0 with unit meters
(GMT unit code `"e"`): `round(s/5/50)*50 = 0`, and no lower bound prevents
a zero-length scale bar. -/
theorem SAR.scaleBar_zero_small (s : ℚ) (h0 : 0 < s) (h125 : s < 125) :
    SAR.scaleBar s = (0, "e") := by
  have hb : s / 5 < 1000 := by linarith
  have h2 : s / 5 / 50 < 1/2 := by linarith
  have h3 : (0:ℚ) ≤ s / 5 / 50 := by positivity
  simp [SAR.scaleBar, hb, SAR.pyRound_eq_zero _ h3 h2]

/-- Witness for C10 at `s = 100`. -/
theorem SAR.scaleBar_zero_small_witness :
    (0 : ℚ) < 100 ∧ (100 : ℚ) < 125 ∧ SAR.scaleBar 100 = (0, "e") :=
  ⟨by norm_num, by norm_num,
    SAR.scaleBar_zero_small 100 (by norm_num) (by norm_num)⟩

/-- C2: for every centered crop spec with center `(cx, cy)` and side
length `side > 0`, the planned projected crop bounds are exactly
`[cx - side/2, cy + side/2, cx + side/2, cy - side/2]` in
(minX, maxY, maxX, minY) order, and the physical side length passed
downstream is `side` itself; e.g. `cx = 100`, `cy = 200`, `side = 40`
gives `[80, 220, 120, 180]`. -/
theorem SAR.planCrop_centered (gt : SAR.GdalGT ℚ) (W H : ℕ)
    (cx cy side : ℚ) (hside : 0 < side) :
    SAR.planCrop gt W H (some side) cx cy
      = ((cx - side/2, cy + side/2, cx + side/2, cy - side/2), side)
    ∧ SAR.planCrop gt W H (some 40) 100 200 = ((80, 220, 120, 180), 40) := by
  refine ⟨rfl, ?_⟩
  norm_num [SAR.planCrop]

/-- Witness for C2 at `gt = (0,1,0,0,0,-1)`, raster 5×5, center (100,200),
side 40. -/
theorem SAR.planCrop_centered_witness :
    (0 : ℚ) < 40
    ∧ SAR.planCrop ⟨0, 1, 0, 0, 0, -1⟩ 5 5 (some 40) 100 200
        = ((100 - 40/2, 200 + 40/2, 100 + 40/2, 200 - 40/2), 40) :=
  ⟨by norm_num,
    (SAR.planCrop_centered ⟨0, 1, 0, 0, 0, -1⟩ 5 5 100 200 40 (by norm_num)).1⟩

/-- C8: when no crop size is specified (the `KeyError` / full-extent
branch), the planned crop bounds equal the raster's own extent computed
from its geotransform, `[x_min, y_max, x_max, y_min]` with
`x_max = x_min + pixelSizeX * rasterWidth` and
`y_min = y_max + pixelSizeY * rasterHeight`, and the physical side length
stored for the scale bar is the raster width in projected units
`x_max - x_min = pixelSizeX * rasterWidth`. -/
theorem SAR.planCrop_fullExtent (gt : SAR.GdalGT ℚ) (W H : ℕ) (cx cy : ℚ) :
    SAR.planCrop gt W H none cx cy
      = ((gt.g0, gt.g3, gt.g0 + gt.g1 * (W:ℚ), gt.g3 + gt.g5 * (H:ℚ)),
          gt.g1 * (W:ℚ)) := by
  simp [SAR.planCrop]

namespace SAR

variable {K : Type} [Field K]

/-- An affine transform as in the Python `affine` package:
`Affine(a, b, c, d, e, f)` is the matrix
`| a b c ; d e f ; 0 0 1 |` mapping `(x, y)` to
`(a*x + b*y + c, d*x + e*y + f)`. -/
@[ext]
structure AffineT (K : Type) where
  a : K
  b : K
  c : K
  d : K
  e : K
  f : K
deriving DecidableEq, Repr

/-- Matrix product `s * o` of two affine transforms (the `affine`
package's `__mul__`): the composition applying `o` first, then `s`. -/
def AffineT.mul (s o : AffineT K) : AffineT K :=
  ⟨s.a * o.a + s.b * o.d,
   s.a * o.b + s.b * o.e,
   s.a * o.c + s.b * o.f + s.c,
   s.d * o.a + s.e * o.d,
   s.d * o.b + s.e * o.e,
   s.d * o.c + s.e * o.f + s.f⟩

/-- The `affine` package's `Affine.rotation(angle, pivot)` with the
cosine `ca` and sine `sa` of the angle supplied explicitly:
`Affine(ca, -sa, px - px*ca + py*sa, sa, ca, py - px*sa - py*ca)`,
i.e. rotation about the pivot `(px, py)`. -/
def AffineT.rotationPivot (ca sa px py : K) : AffineT K :=
  ⟨ca, -sa, px - px * ca + py * sa, sa, ca, py - px * sa - py * ca⟩

/-- `Affine.from_gdal(*gt)`: GDAL geotransform order `(c, a, b, f, d, e)`
to the affine's `(a, b, c, d, e, f)`. -/
def AffineT.fromGdal (gt : GdalGT K) : AffineT K :=
  ⟨gt.g1, gt.g2, gt.g0, gt.g4, gt.g5, gt.g3⟩

/-- `Affine.to_gdal()`: back to GDAL coefficient order. -/
def AffineT.toGdal (A : AffineT K) : GdalGT K :=
  ⟨A.c, A.a, A.b, A.f, A.d, A.e⟩

/-- The geotransform rewrite of `rotate_dataset` (SAR.py lines 475-492),
with the cosine `ca` and sine `sa` of the rotation angle supplied
explicitly and `(px, py)` the projected pivot point.  The pixel-space
pivot is recovered as `((px - gt0)/gt1, (py - gt3)/gt5)` and the
geotransform is replaced by
`Affine.from_gdal(*gt) * rotation(angle, pivot)`. -/
def rotateGT (gt : GdalGT K) (ca sa px py : K) : GdalGT K :=
  let xrot := (px - gt.g0) / gt.g1
  let yrot := (py - gt.g3) / gt.g5
  ((AffineT.fromGdal gt).mul (AffineT.rotationPivot ca sa xrot yrot)).toGdal

/-- `math.radians`: degrees to radians. -/
noncomputable def radians (deg : ℝ) : ℝ := deg * Real.pi / 180

/-- `rotate_dataset` over exact reals: the angle is in degrees, the
cosine/sine are the exact values that `affine`'s `cos_sin_deg` computes
(its special-casing of quadrant angles is the identity over `ℝ`). -/
noncomputable def rotate_dataset (gt : GdalGT ℝ) (angle px py : ℝ) :
    GdalGT ℝ :=
  rotateGT gt (Real.cos (radians angle)) (Real.sin (radians angle)) px py

end SAR

/-- C3: for every geotransform `gt` and every pivot point `(px, py)`,
applying the pivot-rotation transform with angle 0 returns `gt`
unchanged — an exact identity, independent of the pivot. -/
theorem SAR.rotate_dataset_zero (gt : SAR.GdalGT ℝ) (px py : ℝ) :
    SAR.rotate_dataset gt 0 px py = gt := by
  unfold SAR.rotate_dataset SAR.radians
  rw [zero_mul, zero_div, Real.cos_zero, Real.sin_zero]
  unfold SAR.rotateGT SAR.AffineT.mul SAR.AffineT.rotationPivot
    SAR.AffineT.fromGdal SAR.AffineT.toGdal
  ext <;> simp

/-- Helper: when the projected pivot is the raster origin `(gt0, gt3)`
(pixel pivot `(0,0)`), two successive `rotateGT` applications compose by
the angle-sum formulas on the supplied cosines and sines. -/
theorem SAR.rotateGT_originPivot_add {K : Type} [Field K]
    (gt : SAR.GdalGT K) (c1 s1 c2 s2 : K) :
    SAR.rotateGT (SAR.rotateGT gt c1 s1 gt.g0 gt.g3) c2 s2 gt.g0 gt.g3
      = SAR.rotateGT gt (c1 * c2 - s1 * s2) (s1 * c2 + c1 * s2)
          gt.g0 gt.g3 := by
  unfold SAR.rotateGT SAR.AffineT.mul SAR.AffineT.rotationPivot
    SAR.AffineT.fromGdal SAR.AffineT.toGdal
  ext <;> simp <;> ring

namespace SAR

/-- `rotate_dataset` with its error path made explicit: the pixel-pivot
conversions `(point[0] - gt[0]) / gt[1]` and `(point[1] - gt[3]) / gt[5]`
(SAR.py lines 481-482) raise `ZeroDivisionError` in Python when the
corresponding coefficient is exactly zero — which can happen at
non-degenerate inputs, e.g. after a first rotation by 90° (whose cosine
`cos_sin_deg` special-cases to exactly `0.0`) zeroes both `gt1` and
`gt5`.  `none` models the raised error, `some` the rewritten
geotransform. -/
noncomputable def rotate_dataset_checked (gt : GdalGT ℝ) (angle px py : ℝ) :
    Option (GdalGT ℝ) :=
  if gt.g1 = 0 ∨ gt.g5 = 0 then none
  else some (rotate_dataset gt angle px py)

end SAR

/-- Helper: rotation with cosine 1 and sine 0 leaves every geotransform
unchanged, whatever the pivot. -/
theorem SAR.rotateGT_identity {K : Type} [Field K]
    (gt : SAR.GdalGT K) (px py : K) :
    SAR.rotateGT gt 1 0 px py = gt := by
  unfold SAR.rotateGT SAR.AffineT.mul SAR.AffineT.rotationPivot
    SAR.AffineT.fromGdal SAR.AffineT.toGdal
  ext <;> simp

/-- C4 (amended): rotation additivity about the raster origin
`(gt0, gt3)` — whose pixel-space image is `(0,0)` and which the rotation
leaves in place — conditional on successful execution: whenever rotating
`gt` by `a` about that projected point executes without a
`ZeroDivisionError` (producing `gt'`) and rotating `gt'` by `b` about the
same point also executes (producing `gt''`), then the single rotation of
`gt` by `a + b` about that point executes too and produces exactly
`gt''`.  (For a general pivot additivity fails — see the counterexample —
and for some angles, e.g. `a = 90` at an axis-aligned geotransform, the
second rotation itself raises, since the first zeroes both pixel-size
coefficients.) -/
theorem SAR.rotate_dataset_checked_additive_origin
    (gt gt' gt'' : SAR.GdalGT ℝ) (a b : ℝ)
    (h1 : SAR.rotate_dataset_checked gt a gt.g0 gt.g3 = some gt')
    (h2 : SAR.rotate_dataset_checked gt' b gt.g0 gt.g3 = some gt'') :
    SAR.rotate_dataset_checked gt (a + b) gt.g0 gt.g3 = some gt'' := by
  unfold SAR.rotate_dataset_checked at h1 h2 ⊢
  by_cases hgt : gt.g1 = 0 ∨ gt.g5 = 0
  · rw [if_pos hgt] at h1
    exact absurd h1 (by simp)
  · rw [if_neg hgt] at h1
    rw [if_neg hgt]
    by_cases hgt' : gt'.g1 = 0 ∨ gt'.g5 = 0
    · rw [if_pos hgt'] at h2
      exact absurd h2 (by simp)
    · rw [if_neg hgt'] at h2
      rw [← Option.some.inj h2, ← Option.some.inj h1]
      congr 1
      unfold SAR.rotate_dataset
      have h : SAR.radians (a + b) = SAR.radians a + SAR.radians b := by
        unfold SAR.radians; ring
      rw [h, Real.cos_add, Real.sin_add]
      exact (SAR.rotateGT_originPivot_add gt _ _ _ _).symm

namespace SAR

/-- The identity geotransform `(0, 1, 0, 0, 0, 1)`: origin `(0,0)`, unit
pixel sizes, no skew. -/
def gtIdEx : GdalGT ℝ := ⟨0, 1, 0, 0, 0, 1⟩

/-- An explicit rotation angle in degrees whose radian measure is
`arccos (3/5)`, so its cosine and sine are exactly `3/5` and `4/5`. -/
noncomputable def angEx : ℝ := Real.arccos (3/5) / Real.pi * 180

end SAR

/-- Witness for C4 (amended) at the identity geotransform with
`a = b = 0`: both hypothesis executions succeed (unit pixel sizes, so no
`ZeroDivisionError`), and the combined rotation produces the same
geotransform. -/
theorem SAR.rotate_dataset_checked_additive_origin_witness :
    SAR.rotate_dataset_checked SAR.gtIdEx 0 SAR.gtIdEx.g0 SAR.gtIdEx.g3
        = some SAR.gtIdEx
    ∧ SAR.rotate_dataset_checked SAR.gtIdEx (0 + 0) SAR.gtIdEx.g0 SAR.gtIdEx.g3
        = some SAR.gtIdEx := by
  have h : SAR.rotate_dataset_checked SAR.gtIdEx 0 SAR.gtIdEx.g0 SAR.gtIdEx.g3
      = some SAR.gtIdEx := by
    have hr : SAR.radians 0 = 0 := by unfold SAR.radians; ring
    unfold SAR.rotate_dataset_checked SAR.rotate_dataset
    rw [hr, Real.cos_zero, Real.sin_zero, SAR.rotateGT_identity]
    rw [if_neg (by norm_num [SAR.gtIdEx])]
  exact ⟨h, SAR.rotate_dataset_checked_additive_origin SAR.gtIdEx SAR.gtIdEx
    SAR.gtIdEx 0 0 h h⟩

/-- Helper: the radian measure of `angEx` is `arccos (3/5)`. -/
theorem SAR.radians_angEx : SAR.radians SAR.angEx = Real.arccos (3/5) := by
  unfold SAR.radians SAR.angEx
  have hpi : Real.pi ≠ 0 := Real.pi_ne_zero
  field_simp

/-- Helper: the cosine of `angEx` degrees is `3/5`. -/
theorem SAR.cos_angEx : Real.cos (SAR.radians SAR.angEx) = 3/5 := by
  rw [SAR.radians_angEx]
  exact Real.cos_arccos (by norm_num) (by norm_num)

/-- Helper: the sine of `angEx` degrees is `4/5`. -/
theorem SAR.sin_angEx : Real.sin (SAR.radians SAR.angEx) = 4/5 := by
  rw [SAR.radians_angEx, Real.sin_arccos]
  rw [show (1:ℝ) - (3/5)^2 = (4/5)^2 by norm_num, Real.sqrt_sq (by norm_num)]

/-- Helper: the radian measure of `angEx + angEx` is twice that of
`angEx`. -/
theorem SAR.radians_two_angEx :
    SAR.radians (SAR.angEx + SAR.angEx) = 2 * SAR.radians SAR.angEx := by
  unfold SAR.radians; ring

/-- Helper: the cosine of `angEx + angEx` degrees is `-7/25`. -/
theorem SAR.cos_two_angEx :
    Real.cos (SAR.radians (SAR.angEx + SAR.angEx)) = -(7/25) := by
  rw [SAR.radians_two_angEx, Real.cos_two_mul, SAR.cos_angEx]
  norm_num

/-- Helper: the sine of `angEx + angEx` degrees is `24/25`. -/
theorem SAR.sin_two_angEx :
    Real.sin (SAR.radians (SAR.angEx + SAR.angEx)) = 24/25 := by
  rw [SAR.radians_two_angEx, Real.sin_two_mul, SAR.sin_angEx, SAR.cos_angEx]
  norm_num

/-- C4 counterexample: rotation additivity fails for a general pivot.
At the identity geotransform, projected pivot `(0, 1)` and the angle
`angEx` (cosine `3/5`, sine `4/5`) applied twice versus the doubled angle
applied once, the resulting geotransforms differ: the first call rewrites
the geotransform, and the second call recovers the pixel pivot from the
rewritten coefficients while ignoring the skew terms the first rotation
introduced, so the two origin-X coefficients are `-16/75` versus `24/25`
— a difference of about 1.17 projected units, far beyond floating
tolerance. -/
theorem SAR.rotate_dataset_not_additive :
    SAR.rotate_dataset (SAR.rotate_dataset SAR.gtIdEx SAR.angEx 0 1)
        SAR.angEx 0 1
      ≠ SAR.rotate_dataset SAR.gtIdEx (SAR.angEx + SAR.angEx) 0 1 := by
  intro hEq
  have h1 : (SAR.rotate_dataset (SAR.rotate_dataset SAR.gtIdEx SAR.angEx 0 1)
      SAR.angEx 0 1).g0 = -(16/75) := by
    simp only [SAR.rotate_dataset, SAR.cos_angEx, SAR.sin_angEx]
    norm_num [SAR.rotateGT, SAR.AffineT.mul, SAR.AffineT.rotationPivot,
      SAR.AffineT.fromGdal, SAR.AffineT.toGdal, SAR.gtIdEx]
  have h2 : (SAR.rotate_dataset SAR.gtIdEx (SAR.angEx + SAR.angEx) 0 1).g0
      = 24/25 := by
    simp only [SAR.rotate_dataset, SAR.cos_two_angEx, SAR.sin_two_angEx]
    norm_num [SAR.rotateGT, SAR.AffineT.mul, SAR.AffineT.rotationPivot,
      SAR.AffineT.fromGdal, SAR.AffineT.toGdal, SAR.gtIdEx]
  rw [hEq, h2] at h1
  norm_num at h1

namespace SAR

/-- The title font-size search of `add_annotations` (SAR.py lines
563-578): starting from `size`, measure the rendered multi-line text
width at the current size; stop at the first size whose width is `>=`
the target, else increment by 1 and retry.  The Python loop is
`while True`; it is embedded with explicit fuel, `none` meaning the fuel
ran out before the loop exited. -/
def fontSizeSearch (width : ℕ → ℚ) (target : ℚ) : ℕ → ℕ → Option ℕ
  | 0, _ => none
  | fuel + 1, size =>
    if target ≤ width size then some size
    else fontSizeSearch width target fuel (size + 1)

end SAR

/-- Helper: the search returns the least satisfying size at or after its
start, given enough fuel. -/
theorem SAR.fontSizeSearch_eq_of_least (width : ℕ → ℚ) (target : ℚ)
    (fuel : ℕ) :
    ∀ start n : ℕ, start ≤ n → target ≤ width n →
      (∀ m, start ≤ m → m < n → width m < target) → n - start < fuel →
      SAR.fontSizeSearch width target fuel start = some n := by
  induction fuel with
  | zero => intro start n _ _ _ hfuel; omega
  | succ fuel ih =>
    intro start n hsn hn hleast hfuel
    by_cases hst : target ≤ width start
    · have : start = n := by
        by_contra hne
        exact absurd hst (not_le.mpr (hleast start le_rfl (by omega)))
      simp only [SAR.fontSizeSearch]
      rw [if_pos hst, this]
    · have hlt : start < n := by
        rcases eq_or_lt_of_le hsn with rfl | h
        · exact absurd hn hst
        · exact h
      have := ih (start + 1) n (by omega) hn
        (fun m hm1 hm2 => hleast m (by omega) hm2) (by omega)
      simp [SAR.fontSizeSearch, hst, this]

/-- C5: under the hypotheses that the rendered text width is
non-decreasing in the font size and grows unboundedly with it, the title
font-size search (start at 8, increment by 1, stop at the first size
whose width reaches the target) terminates — some finite fuel suffices —
and returns the smallest size `n ≥ 8` whose width meets the target. -/
theorem SAR.fontSizeSearch_finds (width : ℕ → ℚ) (target : ℚ)
    (hmono : ∀ n, width n ≤ width (n + 1))
    (hunb : ∀ M : ℚ, ∃ n, M ≤ width n) :
    ∃ fuel n, SAR.fontSizeSearch width target fuel 8 = some n
      ∧ 8 ≤ n ∧ target ≤ width n
      ∧ ∀ m, 8 ≤ m → m < n → width m < target := by
  have hmono' : Monotone width := monotone_nat_of_le_succ hmono
  obtain ⟨N, hN⟩ := hunb target
  have hP : 8 ≤ max N 8 ∧ target ≤ width (max N 8) :=
    ⟨le_max_right N 8, hN.trans (hmono' (le_max_left N 8))⟩
  have hex : ∃ n, 8 ≤ n ∧ target ≤ width n := ⟨max N 8, hP⟩
  classical
  obtain ⟨hn8, hnw⟩ := Nat.find_spec hex
  refine ⟨Nat.find hex - 8 + 1, Nat.find hex, ?_, hn8, hnw, ?_⟩
  · exact SAR.fontSizeSearch_eq_of_least width target _ 8 (Nat.find hex)
      hn8 hnw
      (fun m hm1 hm2 => not_le.mp fun hc =>
        Nat.find_min hex hm2 ⟨hm1, hc⟩)
      (by omega)
  · exact fun m hm1 hm2 => not_le.mp fun hc => Nat.find_min hex hm2 ⟨hm1, hc⟩

/-- Witness for C5 with `width n = n` and `target = 10`: the hypotheses
hold and the search finds the least size `≥ 8` with width `≥ 10`. -/
theorem SAR.fontSizeSearch_finds_witness :
    (∀ n : ℕ, ((n : ℚ)) ≤ ((n + 1 : ℕ) : ℚ))
    ∧ (∀ M : ℚ, ∃ n : ℕ, M ≤ (n : ℚ))
    ∧ ∃ fuel n, SAR.fontSizeSearch (fun k => (k : ℚ)) 10 fuel 8 = some n
        ∧ 8 ≤ n ∧ (10 : ℚ) ≤ (n : ℚ)
        ∧ ∀ m, 8 ≤ m → m < n → ((m : ℚ)) < 10 := by
  have h1 : ∀ n : ℕ, ((n : ℚ)) ≤ ((n + 1 : ℕ) : ℚ) := by
    intro n; push_cast; linarith
  have h2 : ∀ M : ℚ, ∃ n : ℕ, M ≤ (n : ℚ) := fun M => ⟨⌈M⌉₊, Nat.le_ceil M⟩
  exact ⟨h1, h2, SAR.fontSizeSearch_finds (fun k => (k : ℚ)) 10 h1 h2⟩

namespace SAR

/-- The rotated-glyph bounding-box width of `add_north` (SAR.py line
510): `cur_width * abs(cos(angle)) + cur_height * abs(sin(angle))`, with
the angle given in degrees (`angle = math.radians(meta['rotation'])`). -/
noncomputable def rotated_width (w h deg : ℝ) : ℝ :=
  w * |Real.cos (radians deg)| + h * |Real.sin (radians deg)|

/-- The rotated-glyph bounding-box height of `add_north` (SAR.py line
511): `cur_width * abs(sin(angle)) + cur_height * abs(cos(angle))`. -/
noncomputable def rotated_height (w h deg : ℝ) : ℝ :=
  w * |Real.sin (radians deg)| + h * |Real.cos (radians deg)|

/-- `x_shift = (rotated_width - cur_width) / 2` (SAR.py line 517). -/
noncomputable def x_shift (w h deg : ℝ) : ℝ := (rotated_width w h deg - w) / 2

/-- `y_shift = (rotated_height - cur_height) / 2` (SAR.py line 518). -/
noncomputable def y_shift (w h deg : ℝ) : ℝ := (rotated_height w h deg - h) / 2

/-- `scale_factor = arrow_width / rotated_width` with
`arrow_width = img_width / 10` (SAR.py lines 524-527). -/
noncomputable def scale_factor (w h deg imgW : ℝ) : ℝ :=
  (imgW / 10) / rotated_width w h deg

/-- `scaled_width = rotated_width * scale_factor` (SAR.py line 531): the
width of the composed north-arrow figure. -/
noncomputable def scaled_width (w h deg imgW : ℝ) : ℝ :=
  rotated_width w h deg * scale_factor w h deg imgW

/-- `scaled_height = rotated_height * scale_factor` (SAR.py line 532). -/
noncomputable def scaled_height (w h deg imgW : ℝ) : ℝ :=
  rotated_height w h deg * scale_factor w h deg imgW

/-- Rotation of the point `(x, y)` by `deg` degrees about the pivot
`(cx, cy)` in SVG coordinates (the `rotate(angle, cx, cy)` transform the
code sets on the glyph). -/
noncomputable def svgRotate (deg cx cy x y : ℝ) : ℝ × ℝ :=
  (cx + Real.cos (radians deg) * (x - cx) - Real.sin (radians deg) * (y - cy),
   cy + Real.sin (radians deg) * (x - cx) + Real.cos (radians deg) * (y - cy))

/-- Modelled from the spec: the composed transform `add_north` applies to
a point of the vector glyph.  The SVG transform stack set by the code —
`rotate(deg)` about the glyph center, `moveto(x_shift, y_shift)`, then
`scale(scale_factor)` (svgutils semantics, not part of this repository) —
is, per spec §4.4 steps (a)-(d): rotate about the glyph's own center,
translate by the half bounding-box growth, then scale uniformly. -/
noncomputable def northArrowPoint (w h deg imgW x y : ℝ) : ℝ × ℝ :=
  let s := scale_factor w h deg imgW
  let r := svgRotate deg (w / 2) (h / 2) x y
  (s * (r.1 + x_shift w h deg), s * (r.2 + y_shift w h deg))

end SAR

/-- C6: for every glyph of dimensions `(w, h)` and every angle `deg` in
degrees, the computed axis-aligned bounding box of the rotated glyph is
`w' = w*|cos θ| + h*|sin θ|` and `h' = w*|sin θ| + h*|cos θ|`
(`θ = radians deg`), and rotating by `deg` and by `deg + 180` yields
identical bounding-box dimensions. -/
theorem SAR.rotated_bbox_spec (w h deg : ℝ) :
    SAR.rotated_width w h deg
        = w * |Real.cos (SAR.radians deg)| + h * |Real.sin (SAR.radians deg)|
    ∧ SAR.rotated_height w h deg
        = w * |Real.sin (SAR.radians deg)| + h * |Real.cos (SAR.radians deg)|
    ∧ SAR.rotated_width w h (deg + 180) = SAR.rotated_width w h deg
    ∧ SAR.rotated_height w h (deg + 180) = SAR.rotated_height w h deg := by
  have hrad : SAR.radians (deg + 180) = SAR.radians deg + Real.pi := by
    unfold SAR.radians; ring
  have hcos : |Real.cos (SAR.radians (deg + 180))|
      = |Real.cos (SAR.radians deg)| := by
    rw [hrad, Real.cos_add]
    simp [abs_neg]
  have hsin : |Real.sin (SAR.radians (deg + 180))|
      = |Real.sin (SAR.radians deg)| := by
    rw [hrad, Real.sin_add]
    simp [abs_neg]
  exact ⟨rfl, rfl, by unfold SAR.rotated_width; rw [hcos, hsin],
    by unfold SAR.rotated_height; rw [hcos, hsin]⟩

/-- Helper: the rotated bounding-box width is positive for a glyph with
positive dimensions, since `|cos|` and `|sin|` never vanish together. -/
theorem SAR.rotated_width_pos (w h deg : ℝ) (hw : 0 < w) (hh : 0 < h) :
    0 < SAR.rotated_width w h deg := by
  unfold SAR.rotated_width
  set x := SAR.radians deg
  have hx := Real.sin_sq_add_cos_sq x
  by_cases hc : Real.cos x = 0
  · have hs2 : Real.sin x ^ 2 = 1 := by rw [hc] at hx; linarith
    have hs : |Real.sin x| = 1 := by
      rw [← Real.sqrt_sq_eq_abs, hs2, Real.sqrt_one]
    rw [hc, abs_zero, mul_zero, zero_add, hs, mul_one]
    exact hh
  · have h1 : 0 < w * |Real.cos x| := mul_pos hw (abs_pos.mpr hc)
    have h2 : 0 ≤ h * |Real.sin x| := mul_nonneg hh.le (abs_nonneg _)
    linarith

/-- C7: for every glyph with positive dimensions `(w, h)` and every
rotation angle, the north-arrow composition (rotate about the glyph's own
center, shift by half the bounding-box growth, scale uniformly) produces
a figure whose bounding-box width is exactly one-tenth of the final
raster's width, and maps the glyph's center `(w/2, h/2)` to the center of
the new bounding box `(scaled_width/2, scaled_height/2)` — for any angle,
so in particular a square glyph rotated by 45° keeps its centroid at the
center of the composite. -/
theorem SAR.north_arrow_spec (w h deg imgW : ℝ) (hw : 0 < w) (hh : 0 < h) :
    SAR.scaled_width w h deg imgW = imgW / 10
    ∧ SAR.northArrowPoint w h deg imgW (w / 2) (h / 2)
        = (SAR.scaled_width w h deg imgW / 2,
            SAR.scaled_height w h deg imgW / 2) := by
  constructor
  · unfold SAR.scaled_width SAR.scale_factor
    rw [mul_div_assoc']
    exact mul_div_cancel_left₀ _ (SAR.rotated_width_pos w h deg hw hh).ne'
  · unfold SAR.northArrowPoint SAR.svgRotate SAR.x_shift SAR.y_shift
      SAR.scaled_width SAR.scaled_height
    refine Prod.ext ?_ ?_ <;> simp <;> ring

/-- Witness for C7 at `w = 3`, `h = 2`, `deg = 0`, `imgW = 40`. -/
theorem SAR.north_arrow_spec_witness :
    (0 : ℝ) < 3 ∧ (0 : ℝ) < 2
    ∧ (SAR.scaled_width 3 2 0 40 = 40 / 10
        ∧ SAR.northArrowPoint 3 2 0 40 (3 / 2) (2 / 2)
            = (SAR.scaled_width 3 2 0 40 / 2, SAR.scaled_height 3 2 0 40 / 2)) :=
  ⟨by norm_num, by norm_num,
    SAR.north_arrow_spec 3 2 0 40 (by norm_num) (by norm_num)⟩

namespace SAR

/-- Python `str.split(sep)` for a one-character separator, over character
lists: always returns at least one (possibly empty) segment, one more per
separator occurrence. -/
def pySplit (sep : Char) : List Char → List (List Char)
  | [] => [[]]
  | c :: rest =>
    let ss := pySplit sep rest
    if c = sep then [] :: ss
    else (c :: ss.headI) :: ss.tail

/-- The characters of the pattern `"UTM zone"` removed by
`get_geoinfo`. -/
def utmPat : List Char := ['U', 'T', 'M', ' ', 'z', 'o', 'n', 'e']

/-- Python `str.replace("UTM zone", "")` over character lists: remove all
non-overlapping occurrences of `utmPat`, scanning left to right.  The
first argument is fuel, consumed one unit per examined character;
`removeUTMZone` supplies the list's length, which always suffices. -/
def removeUTMZoneAux : ℕ → List Char → List Char
  | 0, _ => []
  | _, [] => []
  | fuel + 1, c :: rest =>
    if (c :: rest).take 8 = utmPat then removeUTMZoneAux fuel (rest.drop 7)
    else c :: removeUTMZoneAux fuel rest

/-- `str.replace("UTM zone", "")`. -/
def removeUTMZone (l : List Char) : List Char := removeUTMZoneAux l.length l

/-- Python `str.strip()` whitespace predicate (the ASCII cases). -/
def isPySpace (c : Char) : Bool :=
  c = ' ' || c = '\t' || c = '\n' || c = '\r'

/-- Python `str.strip()`: drop leading and trailing whitespace. -/
def pyStrip (l : List Char) : List Char :=
  ((l.dropWhile isPySpace).reverse.dropWhile isPySpace).reverse

/-- The UTM-zone resolution of `get_geoinfo` (SAR.py lines 277-278):
`projcs.split("/")[1].replace("UTM zone", "").strip()`, over the
projected CRS's descriptive name.  `none` models the `IndexError` raised
when the name contains no `"/"` (fewer than two segments); the error
propagates to the caller. -/
def utmZoneOfProjcs (projcs : List Char) : Option (List Char) :=
  match (pySplit '/' projcs).get? 1 with
  | none => none
  | some seg => some (pyStrip (removeUTMZone seg))

end SAR

/-- C9 counterexample: the descriptive name `"WGS 84 / Pseudo-Mercator"`
contains no `'/'`-separated segment of the form `"UTM zone <N><H>"` — no
segment even contains `"UTM zone"` as a substring — yet the zone
resolution does not fail: it silently returns the label
`"Pseudo-Mercator"`. -/
theorem SAR.utmZone_silent_nonzone :
    (∀ seg ∈ SAR.pySplit '/' ("WGS 84 / Pseudo-Mercator".toList),
        ¬ SAR.utmPat <:+: seg)
    ∧ SAR.utmZoneOfProjcs ("WGS 84 / Pseudo-Mercator".toList)
        = some ("Pseudo-Mercator".toList) := by
  constructor
  · decide
  · decide

/-- Helper: splitting a list that avoids the separator yields the single
segment equal to the list. -/
theorem SAR.pySplit_no_sep (sep : Char) (l : List Char) (h : sep ∉ l) :
    SAR.pySplit sep l = [l] := by
  induction l with
  | nil => rfl
  | cons c rest ih =>
    have hc : ¬ c = sep := fun hcs => h (hcs ▸ List.mem_cons_self c rest)
    have hr : sep ∉ rest := fun hm => h (List.mem_cons_of_mem c hm)
    simp [SAR.pySplit, hc, ih hr]

/-- Helper: splitting at the first separator occurrence prepends the
prefix as the first segment. -/
theorem SAR.pySplit_append (sep : Char) (pre rest : List Char)
    (h : sep ∉ pre) :
    SAR.pySplit sep (pre ++ sep :: rest) = pre :: SAR.pySplit sep rest := by
  induction pre with
  | nil => simp [SAR.pySplit]
  | cons c pre' ih =>
    have hc : ¬ c = sep := fun hcs => h (hcs ▸ List.mem_cons_self c pre')
    have hp : sep ∉ pre' := fun hm => h (List.mem_cons_of_mem c hm)
    simp [SAR.pySplit, hc, ih hp]

/-- C9 (amended): the zone resolution fails — `IndexError`, surfaced to
the caller — exactly when the descriptive name contains no `"/"`; when
the name is `pre ++ "/" ++ seg` with a single slash, it returns `seg`
with every occurrence of `"UTM zone"` removed and surrounding whitespace
stripped, whether or not `seg` has the `"UTM zone <N><H>"` form.  For a
standard name `"<datum> / UTM zone <N><H>"` this is the zone label
`"<N><H>"`; for any other name containing a slash a non-zone label is
returned silently rather than an error. -/
theorem SAR.utmZone_resolution (pre seg : List Char)
    (h1 : '/' ∉ pre) (h2 : '/' ∉ seg) :
    SAR.utmZoneOfProjcs (pre ++ '/' :: seg)
        = some (SAR.pyStrip (SAR.removeUTMZone seg))
    ∧ SAR.utmZoneOfProjcs pre = none := by
  constructor
  · unfold SAR.utmZoneOfProjcs
    rw [SAR.pySplit_append '/' pre seg h1, SAR.pySplit_no_sep '/' seg h2]
    rfl
  · unfold SAR.utmZoneOfProjcs
    rw [SAR.pySplit_no_sep '/' pre h1]
    rfl

/-- Witness for C9 (amended) at the standard descriptor
`"WGS 84 / UTM zone 5N"`: the zone label `"5N"` is returned, and the
slash-free prefix alone fails. -/
theorem SAR.utmZone_resolution_witness :
    '/' ∉ ("WGS 84 ".toList) ∧ '/' ∉ (" UTM zone 5N".toList)
    ∧ (SAR.utmZoneOfProjcs ("WGS 84 ".toList ++ '/' :: " UTM zone 5N".toList)
          = some (SAR.pyStrip (SAR.removeUTMZone (" UTM zone 5N".toList)))
        ∧ SAR.utmZoneOfProjcs ("WGS 84 ".toList) = none)
    ∧ SAR.pyStrip (SAR.removeUTMZone (" UTM zone 5N".toList)) = ['5', 'N'] :=
  ⟨by decide, by decide,
    SAR.utmZone_resolution ("WGS 84 ".toList) (" UTM zone 5N".toList)
      (by decide) (by decide),
    by decide⟩
